import Mathlib

/-!
Shallow embedding of the pingxelflut server (src/server/src/main.rs) and
proofs about its capture-decode-apply pipeline.

The embedding follows the source file closely:
* `ip_addr_from_net_packet`, `PingxelflutPacketStream.decode` embed the frame
  decoder (main.rs lines 119-162); the `etherparse` slice types that the
  decoder consumes are embedded as inductives carrying exactly the data the
  decoder reads (source address, ICMP type, ICMP payload).
* The `pingxelflut` crate (the `Packet` wire codec and the `Icmp` reply
  primitive) and the `canvas` module are repository code that is not part of
  the given source file; those definitions are modelled from the spec and
  are marked as such in their doc comments.
* Machine integers (u16/u32, addresses, payload bytes) are `Nat`, with an
  explicit `% 2^16` where the source casts `u32` to `u16`.
* External effects (pcap capture, socket send, logging) are explicit data:
  fallible steps are `Except String` inputs, emitted effects are an `Action`
  trace, and the log produced by `handle_error` is an `Option String`.
-/

namespace Pingxelflut

/-- The canvas width constant from main.rs line 27 (`const WIDTH: u32 = 1920`). -/
def WIDTH : Nat := 1920

/-- The canvas height constant from main.rs line 28 (`const HEIGHT: u32 = 1080`). -/
def HEIGHT : Nat := 1080

/-- The `as u16` cast used at main.rs lines 63-64 and 186-187: a `u32` value
truncated to 16 bits. -/
def u16_of_u32 (n : Nat) : Nat := n % 2 ^ 16

/-- `std::net::IpAddr`: either an IPv4 or an IPv6 address.  The numeric
address value is opaque to the program, so it is carried as a `Nat`. -/
inductive IpAddr where
  | V4 (addr : Nat)
  | V6 (addr : Nat)
deriving DecidableEq

/-- The IPv4 header data the decoder reads: `ip_packet.header().source_addr()`. -/
structure Ipv4HeaderData where
  source_addr : Nat
deriving DecidableEq

/-- The IPv6 header data the decoder reads: `ip_packet.header().source_addr()`. -/
structure Ipv6HeaderData where
  source_addr : Nat
deriving DecidableEq

/-- `etherparse::NetSlice`: the network layer of a sliced packet. -/
inductive NetSlice where
  | Ipv4 (header : Ipv4HeaderData)
  | Ipv6 (header : Ipv6HeaderData)
deriving DecidableEq

/-- `etherparse::IcmpEchoHeader`: identifier and sequence number of an echo
message.  The decoder matches `EchoRequest(_)` and ignores the contents. -/
structure IcmpEchoHeader where
  id : Nat
  seq : Nat
deriving DecidableEq

/-- `etherparse::Icmpv4Type`: the ICMPv4 message types distinguished by
`etherparse`.  Only `EchoRequest` is accepted by the decoder. -/
inductive Icmpv4Type where
  | Unknown (type_u8 : Nat) (code_u8 : Nat)
  | EchoReply (header : IcmpEchoHeader)
  | DestinationUnreachable
  | Redirect
  | EchoRequest (header : IcmpEchoHeader)
  | TimeExceeded
  | ParameterProblem
  | TimestampRequest
  | TimestampReply
deriving DecidableEq

/-- `etherparse::Icmpv6Type`: the ICMPv6 message types distinguished by
`etherparse`.  Only `EchoRequest` is accepted by the decoder. -/
inductive Icmpv6Type where
  | Unknown (type_u8 : Nat) (code_u8 : Nat)
  | DestinationUnreachable
  | PacketTooBig
  | TimeExceeded
  | ParameterProblem
  | EchoRequest (header : IcmpEchoHeader)
  | EchoReply (header : IcmpEchoHeader)
deriving DecidableEq

/-- The ICMPv4 slice data the decoder reads: `data.icmp_type()` and
`data.payload()`.  Payload bytes are `Nat`s (each a u8 value). -/
structure Icmpv4SliceData where
  icmp_type : Icmpv4Type
  payload : List Nat
deriving DecidableEq

/-- The ICMPv6 slice data the decoder reads: `data.icmp_type()` and
`data.payload()`. -/
structure Icmpv6SliceData where
  icmp_type : Icmpv6Type
  payload : List Nat
deriving DecidableEq

/-- `etherparse::TransportSlice`: the transport layer of a sliced packet. -/
inductive TransportSlice where
  | Icmpv4 (data : Icmpv4SliceData)
  | Icmpv6 (data : Icmpv6SliceData)
  | Udp
  | Tcp
deriving DecidableEq

/-- `etherparse::SlicedPacket`, restricted to the fields the decoder reads:
`net` and `transport` are each present or absent independently. -/
structure SlicedPacket where
  net : Option NetSlice
  transport : Option TransportSlice
deriving DecidableEq

/-- Modelled from the spec: `pingxelflut::format::Packet` is the wire
protocol's command type; its codec lives outside the given source file.
Spec section 3 gives the three variants (size query, size reply with u16
dimensions, set-pixel with u16 coordinates and a packed color); the variant
names are the ones used at the call sites in main.rs. -/
inductive Packet where
  | SizeRequest
  | SizeResponse (width : Nat) (height : Nat)
  | SetPixel (x : Nat) (y : Nat) (color : Nat)
deriving DecidableEq

/-- `ip_addr_from_net_packet` (main.rs lines 123-128): extract the IP source
address from a parsed network layer packet, for both IP versions. -/
def ip_addr_from_net_packet : NetSlice → IpAddr
  | NetSlice.Ipv4 ip_packet => IpAddr.V4 ip_packet.source_addr
  | NetSlice.Ipv6 ip_packet => IpAddr.V6 ip_packet.source_addr

/-- The body of `PingxelflutPacketStream::decode` (main.rs lines 133-161).
`from_bytes` stands for `Packet::from_bytes`, the wire codec consumed from
the `pingxelflut` crate (spec section 6: `decode(bytes) -> Option<Command>`).
`parse_result` is the outcome of `SlicedPacket::from_ethernet(&packet).ok()`:
`none` when Ethernet slicing failed.  The `?` chain on `transport` and `net`
and the nested matches on the ICMP type follow the source line by line.
(The source names the extracted source address `destination_address`; the
value is the network header's source address.) -/
def decode (from_bytes : List Nat → Option Packet)
    (parse_result : Option SlicedPacket) : Option (Packet × IpAddr) :=
  match parse_result with
  | none => none
  | some parsed_packet =>
    match parsed_packet.transport with
    | none => none
    | some transport_packet =>
      match parsed_packet.net with
      | none => none
      | some net =>
        let destination_address := ip_addr_from_net_packet net
        match transport_packet with
        | TransportSlice.Icmpv4 data =>
          match data.icmp_type with
          | Icmpv4Type.EchoRequest _ =>
            (from_bytes data.payload).map (fun p => (p, destination_address))
          | _ => none
        | TransportSlice.Icmpv6 data =>
          match data.icmp_type with
          | Icmpv6Type.EchoRequest _ =>
            (from_bytes data.payload).map (fun p => (p, destination_address))
          | _ => none
        | _ => none

/-- `struct PingxelflutPacketStream;` (main.rs line 119): the codec value is
a unit struct with no fields. -/
structure PingxelflutPacketStream where
deriving DecidableEq

/-- The `PacketCodec` method `decode(&mut self, packet)` (main.rs lines
133-161) as explicit state passing: the struct has no fields, so the method
body cannot change it, and the state threaded out equals the state threaded
in. -/
def PingxelflutPacketStream.decode (s : PingxelflutPacketStream)
    (from_bytes : List Nat → Option Packet)
    (parse_result : Option SlicedPacket) :
    Option (Packet × IpAddr) × PingxelflutPacketStream :=
  (Pingxelflut.decode from_bytes parse_result, s)

/-- Modelled from the spec: `InternalColor` lives in the `canvas` module,
which is not part of the given source file.  Spec section 3: a fixed-width
RGBA color value; each component is a byte. -/
structure InternalColor where
  r : Nat
  g : Nat
  b : Nat
  a : Nat
deriving DecidableEq

/-- Modelled from the spec: `to_internal_color` lives in the `canvas`
module, which is not part of the given source file.  Spec section 3: the
conversion from the packed wire color is total and normalizes components
deterministically by truncation; the packed value is read as four bytes. -/
def to_internal_color (color : Nat) : InternalColor :=
  { r := color / 2 ^ 24 % 256
    g := color / 2 ^ 16 % 256
    b := color / 2 ^ 8 % 256
    a := color % 256 }

/-- Modelled from the spec: `PendingUpdate` is the queued pixel write of
spec section 3: `{ x: u16, y: u16, color: InternalColor }`. -/
structure PendingUpdate where
  x : Nat
  y : Nat
  color : InternalColor
deriving DecidableEq

/-- Modelled from the spec: `Canvas` lives in the `canvas` module, which is
not part of the given source file.  Spec section 3: u16 dimensions, a
framebuffer of `width * height` cells, and a FIFO queue of pending updates.
The framebuffer is a flat row-major list; the shared-ownership wrappers
(`Arc`, `RwLock`, `ConcurrentQueue`) become plain state in the sequential
embedding. -/
structure Canvas where
  width : Nat
  height : Nat
  pixels : List InternalColor
  pixel_queue : List PendingUpdate
deriving DecidableEq

/-- Modelled from the spec: `Canvas::set_pixel`, called by the dispatcher at
main.rs line 202.  Spec section 4.4: push `PendingUpdate { x, y, color }`
onto the queue without range-checking at this stage. -/
def Canvas.set_pixel (c : Canvas) (x y : Nat) (color : InternalColor) : Canvas :=
  { c with pixel_queue := c.pixel_queue ++ [{ x := x, y := y, color := color }] }

/-- Modelled from the spec: the per-update step of `apply_pending`.  Spec
section 4.5: check `0 <= x < width` and `0 <= y < height`; in-range updates
overwrite the framebuffer cell at `(x, y)` (row-major index `y * width + x`);
out-of-range updates are dropped with no error surfaced. -/
def applyUpdate (width height : Nat) (fb : List InternalColor)
    (u : PendingUpdate) : List InternalColor :=
  if u.x < width ∧ u.y < height then fb.set (u.y * width + u.x) u.color else fb

/-- Modelled from the spec: `Canvas::set_queue_pixels`, called from the
render loop at main.rs line 98; spec section 4.5 calls it `apply_pending()`:
drain the entire queue's current contents and apply each update in FIFO
order, range-checked per `applyUpdate`. -/
def Canvas.set_queue_pixels (c : Canvas) : Canvas :=
  { c with
    pixels := c.pixel_queue.foldl (applyUpdate c.width c.height) c.pixels
    pixel_queue := [] }

/-- The color `pixels.clear_color(Color::BLACK)` paints at startup
(main.rs line 59): opaque black. -/
def black : InternalColor := { r := 0, g := 0, b := 0, a := 255 }

/-- The `Canvas` constructed in `App::resumed` (main.rs lines 62-67): u16
truncations of the u32 constants, a framebuffer of `width * height` black
cells, and an empty unbounded queue. -/
def initial_canvas : Canvas :=
  { width := u16_of_u32 WIDTH
    height := u16_of_u32 HEIGHT
    pixels := List.replicate (u16_of_u32 WIDTH * u16_of_u32 HEIGHT) black
    pixel_queue := [] }

/-- `std::net::SocketAddr`: an IP address with a port. -/
structure SocketAddr where
  addr : IpAddr
  port : Nat
deriving DecidableEq

/-- Modelled from the spec: `pingxelflut::icmp::EchoDirection`, consumed at
main.rs line 183; the reply primitive distinguishes echo request from echo
reply. -/
inductive EchoDirection where
  | Request
  | Reply
deriving DecidableEq

/-- Modelled from the spec: `pingxelflut::icmp::Icmp` is the reply
transmission primitive of spec section 6 — a destination, an identifier, a
direction and a payload, with a fallible `send`.  Only the data visible at
the main.rs call sites (lines 182-191) is carried. -/
structure Icmp where
  target : SocketAddr
  id : Nat
  direction : EchoDirection
  payload : List Nat
deriving DecidableEq

/-- Modelled from the spec: `Icmp::new(target, id, direction)` as called at
main.rs line 183; the payload starts empty and is filled by `set_payload`. -/
def Icmp.new (target : SocketAddr) (id : Nat) (direction : EchoDirection) : Icmp :=
  { target := target, id := id, direction := direction, payload := [] }

/-- Modelled from the spec: `Icmp::set_payload` as called at main.rs
lines 184-190. -/
def Icmp.set_payload (i : Icmp) (p : List Nat) : Icmp := { i with payload := p }

/-- One observable effect of the per-packet dispatch task: transmitting an
ICMP packet (`response.send()`, main.rs line 191) or logging a warning
(`warn!`, main.rs line 195). -/
inductive Action where
  | send (packet : Icmp)
  | warn (msg : String)
deriving DecidableEq

/-- The size-response packet built at main.rs lines 185-188:
`Packet::SizeResponse { width: WIDTH as u16, height: HEIGHT as u16 }`. -/
def size_response_packet : Packet :=
  Packet.SizeResponse (u16_of_u32 WIDTH) (u16_of_u32 HEIGHT)

/-- The reply constructed for a size request at main.rs lines 182-190:
`Icmp::new(SocketAddr::new(target_addr, 0), 0, EchoDirection::Reply)` with
its payload set to `Packet::SizeResponse { .. }.to_bytes()`. -/
def size_reply (to_bytes : Packet → List Nat) (target_addr : IpAddr) : Icmp :=
  Icmp.set_payload (Icmp.new { addr := target_addr, port := 0 } 0 EchoDirection.Reply)
    (to_bytes size_response_packet)

/-- The body of the per-packet task spawned in `device_ping_handler`
(main.rs lines 178-205).  `to_bytes` stands for `Packet::to_bytes` (the wire
codec's encoder, spec section 6) and `send_fn` for the outcome of
`response.send()` (the external transmission primitive).  The result is the
list of emitted actions and the canvas after the task. -/
def handle_stream_item (to_bytes : Packet → List Nat)
    (send_fn : Icmp → Except String Unit) (canvas : Canvas)
    (maybe_packet : Except String (Option (Packet × IpAddr))) :
    List Action × Canvas :=
  match maybe_packet with
  | Except.ok (some (packet, target_addr)) =>
    match packet with
    | Packet.SizeRequest =>
      let response := size_reply to_bytes target_addr
      match send_fn response with
      | Except.ok _ => ([Action.send response], canvas)
      | Except.error why =>
        ([Action.send response, Action.warn ("size response error: " ++ why)], canvas)
    | Packet.SizeResponse _ _ => ([], canvas)
    | Packet.SetPixel x y color => ([], canvas.set_pixel x y (to_internal_color color))
  | _ => ([], canvas)

/-- The inputs of one device's pipeline (`device_ping_handler`, main.rs
lines 164-211): each fallible setup step (`Capture::from_device`, `open`,
`setnonblock`, `filter`, `stream`) is an `Except` input supplied by the
external pcap library, and `items` is the sequence of decoded stream items
the capture session delivers (each one a `Result<Option<(Packet, IpAddr)>>`). -/
structure DeviceInput where
  from_device_result : Except String Unit
  open_result : Except String Unit
  setnonblock_result : Except String Unit
  filter_result : Except String Unit
  stream_result : Except String Unit
  items : List (Except String (Option (Packet × IpAddr)))

/-- Folding `handle_stream_item` over the stream items, accumulating the
action trace: the `stream.for_each(...)` loop of main.rs lines 174-209. -/
def process_items (to_bytes : Packet → List Nat)
    (send_fn : Icmp → Except String Unit) (canvas : Canvas)
    (items : List (Except String (Option (Packet × IpAddr)))) :
    List Action × Canvas :=
  items.foldl
    (fun acc item =>
      let r := handle_stream_item to_bytes send_fn acc.2 item
      (acc.1 ++ r.1, r.2))
    ([], canvas)

/-- `device_ping_handler` (main.rs lines 164-211): the `?` chain over the
five fallible setup steps, then the `for_each` loop over the stream.  The
returned `Except` is the function's `Result<()>`; the action trace and final
canvas are the observable effects (empty and unchanged when setup fails, so
the pipeline never starts). -/
def device_ping_handler (to_bytes : Packet → List Nat)
    (send_fn : Icmp → Except String Unit) (canvas : Canvas)
    (dev : DeviceInput) : Except String Unit × (List Action × Canvas) :=
  match dev.from_device_result with
  | Except.error e => (Except.error e, ([], canvas))
  | Except.ok _ =>
    match dev.open_result with
    | Except.error e => (Except.error e, ([], canvas))
    | Except.ok _ =>
      match dev.setnonblock_result with
      | Except.error e => (Except.error e, ([], canvas))
      | Except.ok _ =>
        match dev.filter_result with
        | Except.error e => (Except.error e, ([], canvas))
        | Except.ok _ =>
          match dev.stream_result with
          | Except.error e => (Except.error e, ([], canvas))
          | Except.ok _ =>
            (Except.ok (), process_items to_bytes send_fn canvas dev.items)

/-- `handle_error` (main.rs lines 214-222): await the device future, log its
error with `error!` and otherwise ignore it.  The produced log line is the
only output; nothing is propagated. -/
def handle_error (result : Except String Unit) : Option String :=
  match result with
  | Except.error why => some ("error in async task: " ++ why)
  | Except.ok _ => none

/-- The outcome of one device's handled pipeline: the log line (if any) from
`handle_error`, the emitted actions, and the device's final canvas state. -/
structure DeviceOutcome where
  log : Option String
  actions : List Action
  canvas : Canvas
deriving DecidableEq

/-- One device's pipeline wrapped in `handle_error`, as scheduled by
`ping_handler`'s `for_each_concurrent` (main.rs lines 227-231).  Each device
starts from the canvas handed to `ping_handler` (`canvas.clone()`); the
cross-device interleaving of the shared queue is outside the sequential
embedding, which keeps each device's effects separate. -/
def run_device (to_bytes : Packet → List Nat)
    (send_fn : Icmp → Except String Unit) (canvas : Canvas)
    (dev : DeviceInput) : DeviceOutcome :=
  let r := device_ping_handler to_bytes send_fn canvas dev
  { log := handle_error r.1, actions := r.2.1, canvas := r.2.2 }

/-- All device pipelines: each device is handled independently by
`run_device` (main.rs lines 227-231 schedule them with unbounded
concurrency; no device's outcome feeds into another's). -/
def run_devices (to_bytes : Packet → List Nat)
    (send_fn : Icmp → Except String Unit) (canvas : Canvas)
    (devices : List DeviceInput) : List DeviceOutcome :=
  devices.map (run_device to_bytes send_fn canvas)

/-- The result of `ping_handler` (main.rs lines 224-232): `Device::list()`
may fail, and `.unwrap()` on a failure panics, aborting the capture manager
before any device pipeline starts.  Modelled from the spec for the abort's
extent: spec section 7 classifies device enumeration failure as fatal —
process-level panic policy is runtime configuration outside the given
source file. -/
inductive PingHandlerResult where
  | panicked
  | completed (outcomes : List DeviceOutcome)
deriving DecidableEq

/-- `ping_handler` (main.rs lines 224-232): unwrap the device enumeration
(panic on failure), then run every device pipeline. -/
def ping_handler (to_bytes : Packet → List Nat)
    (send_fn : Icmp → Except String Unit) (canvas : Canvas)
    (device_list : Except String (List DeviceInput)) : PingHandlerResult :=
  match device_list with
  | Except.error _ => PingHandlerResult.panicked
  | Except.ok devices =>
    PingHandlerResult.completed (run_devices to_bytes send_fn canvas devices)

/-! ## Theorems -/

/-- Folding the apply step over a queue whose every update is out of range
changes nothing: each step's range check fails, so each step is the
identity on the framebuffer. -/
lemma foldl_applyUpdate_out_of_range (w h : Nat) (q : List PendingUpdate)
    (hq : ∀ u ∈ q, w ≤ u.x ∨ h ≤ u.y) :
    ∀ fb : List InternalColor, q.foldl (applyUpdate w h) fb = fb := by
  induction q with
  | nil => intro fb; rfl
  | cons u q ih =>
    intro fb
    have hu : w ≤ u.x ∨ h ≤ u.y := hq u (List.mem_cons_self u q)
    have hrest : ∀ v ∈ q, w ≤ v.x ∨ h ≤ v.y :=
      fun v hv => hq v (List.mem_cons_of_mem u hv)
    have hstep : applyUpdate w h fb u = fb := by
      unfold applyUpdate
      rw [if_neg (by omega)]
    rw [List.foldl_cons, hstep, ih hrest fb]

/-- Claim C1: if every enqueued update is out of range (`x >= width` or
`y >= height`), then applying the pending updates with `set_queue_pixels`
(the spec's `apply_pending`) leaves the framebuffer unchanged at all cells:
out-of-range coordinates are dropped before reaching the framebuffer. -/
theorem out_of_range_updates_leave_framebuffer_unchanged (c : Canvas)
    (h : ∀ u ∈ c.pixel_queue, c.width ≤ u.x ∨ c.height ≤ u.y) :
    c.set_queue_pixels.pixels = c.pixels := by
  unfold Canvas.set_queue_pixels
  exact foldl_applyUpdate_out_of_range c.width c.height c.pixel_queue h c.pixels

theorem out_of_range_updates_leave_framebuffer_unchanged_witness :
    (∀ u ∈ (Canvas.mk 2 2 [black, black, black, black]
        [PendingUpdate.mk 2 0 black, PendingUpdate.mk 0 5 black]).pixel_queue,
      (2 : Nat) ≤ u.x ∨ (2 : Nat) ≤ u.y) ∧
    (Canvas.mk 2 2 [black, black, black, black]
        [PendingUpdate.mk 2 0 black, PendingUpdate.mk 0 5 black]).set_queue_pixels.pixels =
      [black, black, black, black] :=
  ⟨by decide,
   out_of_range_updates_leave_framebuffer_unchanged
     (Canvas.mk 2 2 [black, black, black, black]
       [PendingUpdate.mk 2 0 black, PendingUpdate.mk 0 5 black]) (by decide)⟩

/-- Claim C9: frame decoding is deterministic and stateless.  The codec
struct has no fields, so the state threaded through `decode` comes out
unchanged, any two codec values decode identically, and decoding the same
bytes twice (threading the state) yields the same result both times. -/
theorem decode_deterministic_stateless (s s2 : PingxelflutPacketStream)
    (from_bytes : List Nat → Option Packet) (parse_result : Option SlicedPacket) :
    (s.decode from_bytes parse_result).2 = s ∧
    s.decode from_bytes parse_result = s2.decode from_bytes parse_result ∧
    ((s.decode from_bytes parse_result).2).decode from_bytes parse_result =
      s.decode from_bytes parse_result := by
  cases s
  cases s2
  exact ⟨rfl, rfl, rfl⟩

/-- Claim C10: the configured dimensions 1920 and 1080 are below `2^16`, so
the `as u16` casts are lossless: the canvas built in `App::resumed` stores
width 1920 and height 1080, and every size reply's payload encodes the
`SizeResponse` carrying exactly those stored dimensions. -/
theorem dimension_casts_lossless :
    WIDTH < 2 ^ 16 ∧ HEIGHT < 2 ^ 16 ∧
    u16_of_u32 WIDTH = WIDTH ∧ u16_of_u32 HEIGHT = HEIGHT ∧
    initial_canvas.width = 1920 ∧ initial_canvas.height = 1080 ∧
    size_response_packet = Packet.SizeResponse initial_canvas.width initial_canvas.height ∧
    ∀ (to_bytes : Packet → List Nat) (send_fn : Icmp → Except String Unit)
      (canvas : Canvas) (addr : IpAddr),
      (handle_stream_item to_bytes send_fn canvas
          (Except.ok (some (Packet.SizeRequest, addr)))).1.head? =
        some (Action.send (size_reply to_bytes addr)) ∧
      (size_reply to_bytes addr).payload = to_bytes (Packet.SizeResponse 1920 1080) := by
  refine ⟨by decide, by decide, by decide, by decide, rfl, rfl, rfl, ?_⟩
  intro to_bytes send_fn canvas addr
  constructor
  · simp only [handle_stream_item]
    cases hsf : send_fn (size_reply to_bytes addr) <;> simp [hsf]
  · show to_bytes size_response_packet = to_bytes (Packet.SizeResponse 1920 1080)
    norm_num [size_response_packet, u16_of_u32, WIDTH, HEIGHT]

/-- Claim C2: a frame whose transport layer is ICMP (v4 or v6) but not an
echo request decodes to nothing, and dispatching that empty decode result
emits no action and leaves the canvas untouched: non-echo-request ICMP
traffic produces zero canvas mutations and zero reply transmissions. -/
theorem non_echo_request_icmp_dropped
    (from_bytes : List Nat → Option Packet) (p : SlicedPacket)
    (h : (∃ data, p.transport = some (TransportSlice.Icmpv4 data) ∧
            ∀ eh, data.icmp_type ≠ Icmpv4Type.EchoRequest eh) ∨
         (∃ data, p.transport = some (TransportSlice.Icmpv6 data) ∧
            ∀ eh, data.icmp_type ≠ Icmpv6Type.EchoRequest eh)) :
    decode from_bytes (some p) = none ∧
    ∀ (to_bytes : Packet → List Nat) (send_fn : Icmp → Except String Unit)
      (canvas : Canvas),
      handle_stream_item to_bytes send_fn canvas
        (Except.ok (decode from_bytes (some p))) = ([], canvas) := by
  have hnone : decode from_bytes (some p) = none := by
    rcases h with ⟨data, htr, hty⟩ | ⟨data, htr, hty⟩ <;>
      cases hnet : p.net <;>
        cases hty2 : data.icmp_type <;>
          first
            | exact absurd hty2 (hty _)
            | simp [decode, htr, hnet, hty2]
  refine ⟨hnone, ?_⟩
  intro to_bytes send_fn canvas
  rw [hnone]
  rfl

theorem non_echo_request_icmp_dropped_witness :
    decode (fun _ => some Packet.SizeRequest)
      (some (SlicedPacket.mk (some (NetSlice.Ipv4 (Ipv4HeaderData.mk 7)))
        (some (TransportSlice.Icmpv4
          (Icmpv4SliceData.mk (Icmpv4Type.EchoReply (IcmpEchoHeader.mk 0 0)) [1, 2]))))) =
      none ∧
    handle_stream_item (fun _ => []) (fun _ => Except.ok ()) initial_canvas
      (Except.ok (decode (fun _ => some Packet.SizeRequest)
        (some (SlicedPacket.mk (some (NetSlice.Ipv4 (Ipv4HeaderData.mk 7)))
          (some (TransportSlice.Icmpv4
            (Icmpv4SliceData.mk (Icmpv4Type.EchoReply (IcmpEchoHeader.mk 0 0)) [1, 2]))))))) =
      ([], initial_canvas) :=
  ⟨(non_echo_request_icmp_dropped _ _
      (Or.inl ⟨Icmpv4SliceData.mk (Icmpv4Type.EchoReply (IcmpEchoHeader.mk 0 0)) [1, 2],
        rfl, fun _ hq => Icmpv4Type.noConfusion hq⟩)).1,
   (non_echo_request_icmp_dropped _ _
      (Or.inl ⟨Icmpv4SliceData.mk (Icmpv4Type.EchoReply (IcmpEchoHeader.mk 0 0)) [1, 2],
        rfl, fun _ hq => Icmpv4Type.noConfusion hq⟩)).2 _ _ _⟩

/-- Claim C3: the frame decoder is a total function that yields nothing on
every failure: a failed Ethernet slicing, a missing transport layer, a
missing network layer, or a codec decode failure on an echo request's
payload each make `decode` return `none`; and the per-packet handler does
nothing on an empty decode result or an errored stream item, so the
pipeline continues without crashing. -/
theorem decoder_drops_all_failures (from_bytes : List Nat → Option Packet) :
    decode from_bytes none = none ∧
    (∀ p : SlicedPacket, p.transport = none → decode from_bytes (some p) = none) ∧
    (∀ p : SlicedPacket, p.net = none → decode from_bytes (some p) = none) ∧
    (∀ (p : SlicedPacket) (data : Icmpv4SliceData),
      p.transport = some (TransportSlice.Icmpv4 data) →
      from_bytes data.payload = none → decode from_bytes (some p) = none) ∧
    (∀ (p : SlicedPacket) (data : Icmpv6SliceData),
      p.transport = some (TransportSlice.Icmpv6 data) →
      from_bytes data.payload = none → decode from_bytes (some p) = none) ∧
    (∀ (to_bytes : Packet → List Nat) (send_fn : Icmp → Except String Unit)
      (canvas : Canvas) (e : String),
      handle_stream_item to_bytes send_fn canvas (Except.ok none) = ([], canvas) ∧
      handle_stream_item to_bytes send_fn canvas (Except.error e) = ([], canvas)) := by
  refine ⟨rfl, ?_, ?_, ?_, ?_, ?_⟩
  · intro p hp
    simp [decode, hp]
  · intro p hp
    cases htr : p.transport with
    | none => simp [decode, htr]
    | some t => simp [decode, htr, hp]
  · intro p data htr hfb
    cases hnet : p.net with
    | none => simp [decode, htr, hnet]
    | some n =>
      cases hty : data.icmp_type <;> simp [decode, htr, hnet, hty, hfb]
  · intro p data htr hfb
    cases hnet : p.net with
    | none => simp [decode, htr, hnet]
    | some n =>
      cases hty : data.icmp_type <;> simp [decode, htr, hnet, hty, hfb]
  · intro to_bytes send_fn canvas e
    exact ⟨rfl, rfl⟩

theorem decoder_drops_all_failures_witness :
    decode (fun _ => none) none = none ∧
    decode (fun _ => none)
      (some (SlicedPacket.mk (some (NetSlice.Ipv4 (Ipv4HeaderData.mk 1))) none)) = none ∧
    decode (fun _ => none)
      (some (SlicedPacket.mk none
        (some (TransportSlice.Icmpv4
          (Icmpv4SliceData.mk (Icmpv4Type.EchoRequest (IcmpEchoHeader.mk 0 0)) [9]))))) = none ∧
    decode (fun _ => none)
      (some (SlicedPacket.mk (some (NetSlice.Ipv4 (Ipv4HeaderData.mk 1)))
        (some (TransportSlice.Icmpv4
          (Icmpv4SliceData.mk (Icmpv4Type.EchoRequest (IcmpEchoHeader.mk 0 0)) [9]))))) = none ∧
    decode (fun _ => none)
      (some (SlicedPacket.mk (some (NetSlice.Ipv6 (Ipv6HeaderData.mk 2)))
        (some (TransportSlice.Icmpv6
          (Icmpv6SliceData.mk (Icmpv6Type.EchoRequest (IcmpEchoHeader.mk 0 0)) [9]))))) = none ∧
    handle_stream_item (fun _ => []) (fun _ => Except.ok ()) initial_canvas
      (Except.ok none) = ([], initial_canvas) ∧
    handle_stream_item (fun _ => []) (fun _ => Except.ok ()) initial_canvas
      (Except.error "capture error") = ([], initial_canvas) :=
  ⟨(decoder_drops_all_failures (fun _ => none)).1,
   (decoder_drops_all_failures (fun _ => none)).2.1 _ rfl,
   (decoder_drops_all_failures (fun _ => none)).2.2.1 _ rfl,
   (decoder_drops_all_failures (fun _ => none)).2.2.2.1 _ _ rfl rfl,
   (decoder_drops_all_failures (fun _ => none)).2.2.2.2.1 _ _ rfl rfl,
   ((decoder_drops_all_failures (fun _ => none)).2.2.2.2.2 _ _ _ "capture error").1,
   ((decoder_drops_all_failures (fun _ => none)).2.2.2.2.2 _ _ _ "capture error").2⟩

/-- Claim C4: when the decoder succeeds, the address paired with the
command is the source address of the frame's network-layer header, for both
the IPv4 and the IPv6 variant; and every reply the dispatcher sends for
that decoded pair is addressed to that sender address. -/
theorem decoded_address_is_frame_source
    (from_bytes : List Nat → Option Packet) (p : SlicedPacket)
    (cmd : Packet) (addr : IpAddr)
    (h : decode from_bytes (some p) = some (cmd, addr)) :
    (∃ net, p.net = some net ∧ addr = ip_addr_from_net_packet net) ∧
    (∀ h4, p.net = some (NetSlice.Ipv4 h4) → addr = IpAddr.V4 h4.source_addr) ∧
    (∀ h6, p.net = some (NetSlice.Ipv6 h6) → addr = IpAddr.V6 h6.source_addr) ∧
    (∀ (to_bytes : Packet → List Nat) (send_fn : Icmp → Except String Unit)
      (canvas : Canvas) (i : Icmp),
      Action.send i ∈ (handle_stream_item to_bytes send_fn canvas
        (Except.ok (some (cmd, addr)))).1 → i.target.addr = addr) := by
  have hnet : ∃ net, p.net = some net ∧ addr = ip_addr_from_net_packet net := by
    cases htr : p.transport with
    | none => simp [decode, htr] at h
    | some t =>
      cases hnet : p.net with
      | none => simp [decode, htr, hnet] at h
      | some n =>
        refine ⟨n, rfl, ?_⟩
        cases t with
        | Icmpv4 data =>
          cases hty : data.icmp_type <;> simp [decode, htr, hnet, hty] at h
          cases hfb : from_bytes data.payload with
          | none => rw [hfb] at h; simp at h
          | some q => rw [hfb] at h; simp at h; exact h.2.symm
        | Icmpv6 data =>
          cases hty : data.icmp_type <;> simp [decode, htr, hnet, hty] at h
          cases hfb : from_bytes data.payload with
          | none => rw [hfb] at h; simp at h
          | some q => rw [hfb] at h; simp at h; exact h.2.symm
        | Udp => simp [decode, htr, hnet] at h
        | Tcp => simp [decode, htr, hnet] at h
  refine ⟨hnet, ?_, ?_, ?_⟩
  · intro h4 hp4
    obtain ⟨net, hn, ha⟩ := hnet
    rw [hp4] at hn
    cases hn
    exact ha
  · intro h6 hp6
    obtain ⟨net, hn, ha⟩ := hnet
    rw [hp6] at hn
    cases hn
    exact ha
  · intro to_bytes send_fn canvas i hi
    cases cmd with
    | SizeRequest =>
      simp only [handle_stream_item] at hi
      cases hsf : send_fn (size_reply to_bytes addr) <;>
        rw [hsf] at hi <;> simp at hi
      · rw [hi]
        rfl
      · rw [hi]
        rfl
    | SizeResponse w ht => simp [handle_stream_item] at hi
    | SetPixel x y color => simp [handle_stream_item] at hi

theorem decoded_address_is_frame_source_witness :
    decode (fun _ => some Packet.SizeRequest)
      (some (SlicedPacket.mk (some (NetSlice.Ipv4 (Ipv4HeaderData.mk 3232235521)))
        (some (TransportSlice.Icmpv4
          (Icmpv4SliceData.mk (Icmpv4Type.EchoRequest (IcmpEchoHeader.mk 1 2)) [0]))))) =
      some (Packet.SizeRequest, IpAddr.V4 3232235521) ∧
    IpAddr.V4 3232235521 =
      IpAddr.V4 (Ipv4HeaderData.mk 3232235521).source_addr := by
  have h : decode (fun _ => some Packet.SizeRequest)
      (some (SlicedPacket.mk (some (NetSlice.Ipv4 (Ipv4HeaderData.mk 3232235521)))
        (some (TransportSlice.Icmpv4
          (Icmpv4SliceData.mk (Icmpv4Type.EchoRequest (IcmpEchoHeader.mk 1 2)) [0]))))) =
      some (Packet.SizeRequest, IpAddr.V4 3232235521) := rfl
  exact ⟨h, (decoded_address_is_frame_source _ _ _ _ h).2.1 _ rfl ▸ rfl⟩

/-- Claim C5: for a decoded size query the dispatcher builds exactly one
echo reply addressed to the sender, whose payload is the codec encoding of
the size response carrying the canvas's actual dimensions, and transmits
it; on transmission failure it emits exactly one warning and nothing else —
no retry, no propagation, and the canvas is untouched in every case. -/
theorem size_query_single_reply (to_bytes : Packet → List Nat)
    (send_fn : Icmp → Except String Unit) (canvas : Canvas) (addr : IpAddr) :
    (handle_stream_item to_bytes send_fn canvas
        (Except.ok (some (Packet.SizeRequest, addr)))).2 = canvas ∧
    (handle_stream_item to_bytes send_fn canvas
        (Except.ok (some (Packet.SizeRequest, addr)))).1.filterMap
        (fun a => match a with | Action.send i => some i | Action.warn _ => none) =
      [size_reply to_bytes addr] ∧
    (size_reply to_bytes addr).target.addr = addr ∧
    (size_reply to_bytes addr).direction = EchoDirection.Reply ∧
    (size_reply to_bytes addr).payload =
      to_bytes (Packet.SizeResponse initial_canvas.width initial_canvas.height) ∧
    (∀ u, send_fn (size_reply to_bytes addr) = Except.ok u →
      (handle_stream_item to_bytes send_fn canvas
          (Except.ok (some (Packet.SizeRequest, addr)))).1 =
        [Action.send (size_reply to_bytes addr)]) ∧
    (∀ why, send_fn (size_reply to_bytes addr) = Except.error why →
      (handle_stream_item to_bytes send_fn canvas
          (Except.ok (some (Packet.SizeRequest, addr)))).1 =
        [Action.send (size_reply to_bytes addr),
         Action.warn ("size response error: " ++ why)]) := by
  cases hsf : send_fn (size_reply to_bytes addr) with
  | ok u =>
    have hout : handle_stream_item to_bytes send_fn canvas
        (Except.ok (some (Packet.SizeRequest, addr))) =
        ([Action.send (size_reply to_bytes addr)], canvas) := by
      simp only [handle_stream_item, hsf]
    refine ⟨by rw [hout], by rw [hout]; rfl, rfl, rfl, rfl, ?_, ?_⟩
    · intro u2 _
      rw [hout]
    · intro why hwhy
      exact Except.noConfusion hwhy
  | error why =>
    have hout : handle_stream_item to_bytes send_fn canvas
        (Except.ok (some (Packet.SizeRequest, addr))) =
        ([Action.send (size_reply to_bytes addr),
          Action.warn ("size response error: " ++ why)], canvas) := by
      simp only [handle_stream_item, hsf]
    refine ⟨by rw [hout], by rw [hout]; rfl, rfl, rfl, rfl, ?_, ?_⟩
    · intro u2 hu2
      exact Except.noConfusion hu2
    · intro why2 hwhy2
      injection hwhy2 with hww
      subst hww
      rw [hout]

theorem size_query_single_reply_witness :
    (handle_stream_item (fun _ => []) (fun _ => Except.ok ()) initial_canvas
        (Except.ok (some (Packet.SizeRequest, IpAddr.V4 5)))).1 =
      [Action.send (size_reply (fun _ => []) (IpAddr.V4 5))] ∧
    (handle_stream_item (fun _ => []) (fun _ => Except.ok ()) initial_canvas
        (Except.ok (some (Packet.SizeRequest, IpAddr.V4 5)))).2 = initial_canvas ∧
    (size_reply (fun _ => []) (IpAddr.V4 5)).target.addr = IpAddr.V4 5 :=
  ⟨(size_query_single_reply (fun _ => []) (fun _ => Except.ok ())
      initial_canvas (IpAddr.V4 5)).2.2.2.2.2.1 () rfl,
   (size_query_single_reply (fun _ => []) (fun _ => Except.ok ())
      initial_canvas (IpAddr.V4 5)).1,
   (size_query_single_reply (fun _ => []) (fun _ => Except.ok ())
      initial_canvas (IpAddr.V4 5)).2.2.1⟩

/-- Claim C6: a failed device enumeration makes `ping_handler` panic at the
`unwrap` before any device pipeline starts: the capture manager aborts and
no input source exists.  The panic's fatal extent is taken from spec
section 7 (a process-level panic policy is runtime configuration outside
the given source file). -/
theorem enumeration_failure_fatal (to_bytes : Packet → List Nat)
    (send_fn : Icmp → Except String Unit) (canvas : Canvas) (e : String)
    (device_list : Except String (List DeviceInput))
    (h : device_list = Except.error e) :
    ping_handler to_bytes send_fn canvas device_list = PingHandlerResult.panicked ∧
    ∀ outcomes, ping_handler to_bytes send_fn canvas device_list ≠
      PingHandlerResult.completed outcomes := by
  subst h
  exact ⟨rfl, fun _ hq => PingHandlerResult.noConfusion hq⟩

theorem enumeration_failure_fatal_witness :
    ping_handler (fun _ => []) (fun _ => Except.ok ()) initial_canvas
      (Except.error "no devices") = PingHandlerResult.panicked :=
  (enumeration_failure_fatal (fun _ => []) (fun _ => Except.ok ())
    initial_canvas "no devices" (Except.error "no devices") rfl).1

/-- A device whose setup chain fails (capture-open, non-blocking mode, or
filter install) produces a logged outcome with an empty action trace and an
unchanged canvas: its pipeline never starts. -/
lemma run_device_setup_failure (to_bytes : Packet → List Nat)
    (send_fn : Icmp → Except String Unit) (canvas : Canvas) (dev : DeviceInput)
    (hfail : (∃ e, dev.from_device_result = Except.error e) ∨
             (∃ e, dev.open_result = Except.error e) ∨
             (∃ e, dev.setnonblock_result = Except.error e) ∨
             (∃ e, dev.filter_result = Except.error e)) :
    ∃ msg, run_device to_bytes send_fn canvas dev =
      { log := some msg, actions := [], canvas := canvas } := by
  cases h0 : dev.from_device_result with
  | error e =>
    exact ⟨"error in async task: " ++ e,
      by simp [run_device, device_ping_handler, handle_error, h0]⟩
  | ok u0 =>
    cases h1 : dev.open_result with
    | error e =>
      exact ⟨"error in async task: " ++ e,
        by simp [run_device, device_ping_handler, handle_error, h0, h1]⟩
    | ok u1 =>
      cases h2 : dev.setnonblock_result with
      | error e =>
        exact ⟨"error in async task: " ++ e,
          by simp [run_device, device_ping_handler, handle_error, h0, h1, h2]⟩
      | ok u2 =>
        cases h3 : dev.filter_result with
        | error e =>
          exact ⟨"error in async task: " ++ e,
            by simp [run_device, device_ping_handler, handle_error, h0, h1, h2, h3]⟩
        | ok u3 =>
          exfalso
          rcases hfail with ⟨e, he⟩ | ⟨e, he⟩ | ⟨e, he⟩ | ⟨e, he⟩
          · rw [h0] at he
            exact Except.noConfusion he
          · rw [h1] at he
            exact Except.noConfusion he
          · rw [h2] at he
            exact Except.noConfusion he
          · rw [h3] at he
            exact Except.noConfusion he

/-- Claim C7: a device whose capture-open (or filter-install) fails yields
a logged outcome with no actions and an untouched canvas — that pipeline is
skipped — while every other position's outcome is computed from that
device's own input alone: replacing the rest of the device list never
changes it. -/
theorem device_failure_skipped_and_isolated (to_bytes : Packet → List Nat)
    (send_fn : Icmp → Except String Unit) (canvas : Canvas)
    (devs devs2 : List DeviceInput) (i j : Nat) (dev : DeviceInput)
    (hi : devs[i]? = some dev)
    (hfail : (∃ e, dev.from_device_result = Except.error e) ∨
             (∃ e, dev.open_result = Except.error e) ∨
             (∃ e, dev.setnonblock_result = Except.error e) ∨
             (∃ e, dev.filter_result = Except.error e))
    (hj : devs[j]? = devs2[j]?) :
    (run_devices to_bytes send_fn canvas devs)[i]?.map
        (fun o => (o.log.isSome, o.actions, o.canvas)) =
      some (true, ([] : List Action), canvas) ∧
    (run_devices to_bytes send_fn canvas devs)[j]? =
      (run_devices to_bytes send_fn canvas devs2)[j]? := by
  obtain ⟨msg, hrd⟩ := run_device_setup_failure to_bytes send_fn canvas dev hfail
  constructor
  · simp [run_devices, List.getElem?_map, hi, hrd]
  · simp only [run_devices, List.getElem?_map, hj]

theorem device_failure_skipped_and_isolated_witness :
    (run_devices (fun _ => []) (fun _ => Except.ok ()) initial_canvas
        [DeviceInput.mk (Except.error "nope") (Except.ok ()) (Except.ok ())
          (Except.ok ()) (Except.ok ()) []])[0]?.map
        (fun o => (o.log.isSome, o.actions, o.canvas)) =
      some (true, ([] : List Action), initial_canvas) ∧
    (run_devices (fun _ => []) (fun _ => Except.ok ()) initial_canvas
        [DeviceInput.mk (Except.error "nope") (Except.ok ()) (Except.ok ())
          (Except.ok ()) (Except.ok ()) []])[1]? =
      (run_devices (fun _ => []) (fun _ => Except.ok ()) initial_canvas
        ([] : List DeviceInput))[1]? :=
  device_failure_skipped_and_isolated (fun _ => []) (fun _ => Except.ok ())
    initial_canvas
    [DeviceInput.mk (Except.error "nope") (Except.ok ()) (Except.ok ())
      (Except.ok ()) (Except.ok ()) []]
    ([] : List DeviceInput) 0 1
    (DeviceInput.mk (Except.error "nope") (Except.ok ()) (Except.ok ())
      (Except.ok ()) (Except.ok ()) [])
    rfl (Or.inl ⟨"nope", rfl⟩) rfl

/-- Claim C8: a session error (the capture stream failing after the device
opened) terminates that device's pipeline: the outcome carries the logged
error, no actions were emitted, the canvas is untouched, and the delivered
frames are never processed (the outcome does not depend on them); the error
is absorbed by `handle_error`, so every device in any list still yields an
outcome — nothing propagates beyond the device's scope. -/
theorem session_error_terminates_device_pipeline (to_bytes : Packet → List Nat)
    (send_fn : Icmp → Except String Unit) (canvas : Canvas)
    (dev : DeviceInput) (e : String)
    (h0 : dev.from_device_result = Except.ok ())
    (h1 : dev.open_result = Except.ok ())
    (h2 : dev.setnonblock_result = Except.ok ())
    (h3 : dev.filter_result = Except.ok ())
    (hs : dev.stream_result = Except.error e) :
    run_device to_bytes send_fn canvas dev =
      { log := some ("error in async task: " ++ e), actions := [], canvas := canvas } ∧
    (∀ items2, run_device to_bytes send_fn canvas { dev with items := items2 } =
      run_device to_bytes send_fn canvas dev) ∧
    (∀ devs : List DeviceInput,
      (run_devices to_bytes send_fn canvas devs).length = devs.length) := by
  refine ⟨?_, ?_, ?_⟩
  · simp [run_device, device_ping_handler, handle_error, h0, h1, h2, h3, hs]
  · intro items2
    simp [run_device, device_ping_handler, handle_error, h0, h1, h2, h3, hs]
  · intro devs
    simp [run_devices]

theorem session_error_terminates_device_pipeline_witness :
    run_device (fun _ => []) (fun _ => Except.ok ()) initial_canvas
      (DeviceInput.mk (Except.ok ()) (Except.ok ()) (Except.ok ())
        (Except.ok ()) (Except.error "stream error") [Except.ok none]) =
      { log := some ("error in async task: " ++ "stream error"), actions := [],
        canvas := initial_canvas } ∧
    (run_devices (fun _ => []) (fun _ => Except.ok ()) initial_canvas
        [DeviceInput.mk (Except.ok ()) (Except.ok ()) (Except.ok ())
          (Except.ok ()) (Except.error "stream error") [Except.ok none]]).length =
      [DeviceInput.mk (Except.ok ()) (Except.ok ()) (Except.ok ())
        (Except.ok ()) (Except.error "stream error") [Except.ok none]].length :=
  ⟨(session_error_terminates_device_pipeline (fun _ => []) (fun _ => Except.ok ())
      initial_canvas
      (DeviceInput.mk (Except.ok ()) (Except.ok ()) (Except.ok ())
        (Except.ok ()) (Except.error "stream error") [Except.ok none])
      "stream error" rfl rfl rfl rfl rfl).1,
   (session_error_terminates_device_pipeline (fun _ => []) (fun _ => Except.ok ())
      initial_canvas
      (DeviceInput.mk (Except.ok ()) (Except.ok ()) (Except.ok ())
        (Except.ok ()) (Except.error "stream error") [Except.ok none])
      "stream error" rfl rfl rfl rfl rfl).2.2
     [DeviceInput.mk (Except.ok ()) (Except.ok ()) (Except.ok ())
       (Except.ok ()) (Except.error "stream error") [Except.ok none]]⟩

end Pingxelflut
